import Mathlib

/-!
Verification development for the allure-js reporting adapter
(`allure-jasmine` / `allure-js-commons`).

The definitions below are a shallow embedding of:
  * `ExecutableItemWrapper` (status/stage bookkeeping and `wrap`) and
    `AllureStep.endStep` from `allure-js-commons/src/ExecutableItemWrapper.ts`;
  * `JasmineAllureReporter`, `JasmineAllureInterface` and `WrappedStep`
    from `allure-jasmine/src/JasmineAllureReporter.ts`.
JavaScript strings are Lean `String`s; JS truthiness of a string field is
modelled as being nonempty; a thrown or rejected non-error plain value is
modelled as an error record whose `message` and `stack` are empty (falsy).
Mutation of the report model is modelled by explicit state passing; a JS
`throw` out of a reporter callback is modelled by the callback returning
`some errorMessage` alongside the state as mutated up to the throw point.
-/

namespace AllureJs

/-- Outcome classification of the Allure report model (`Status` enum). -/
inductive Status where
  | passed | failed | broken | skipped
  deriving DecidableEq, Repr

/-- Lifecycle phase of an executable item (`Stage` enum). -/
inductive Stage where
  | scheduled | running | finished | pending | interrupted
  deriving DecidableEq, Repr

/-- A JavaScript error-like value observed in a catch/reject position.
A thrown non-error plain value (number, string, object without the fields)
is modelled with empty `message` and `stack`, which are JS-falsy. -/
structure JsError where
  message : String := ""
  stack : String := ""
  deriving DecidableEq, Repr

/-- JS truthiness of a string-valued field. -/
def truthy (s : String) : Bool := s ≠ ""

/-- Does the character list start with the given needle, consuming it (`none`
when it does not). -/
def dropLeading : List Char → List Char → Option (List Char)
  | l, [] => some l
  | [], _ :: _ => none
  | a :: as, b :: bs => if a = b then dropLeading as bs else none

/-- Remove the first occurrence of `needle` from the list, as JS
`String.prototype.replace(needle, "")` does for string patterns. -/
def removeFirstAux (needle : List Char) : List Char → List Char
  | [] => []
  | c :: rest =>
    match dropLeading (c :: rest) needle with
    | some tail => tail
    | none => c :: removeFirstAux needle rest

/-- JS `hay.replace(needle, "")`: removes the first occurrence of `needle`.
An empty needle leaves the string unchanged (JS inserts "" at position 0). -/
def replaceFirst (hay needle : String) : String :=
  String.mk (removeFirstAux needle.data hay.data)

/-- An attachment reference stored on an executable item
(`{ name, type, source }` pushed by `addAttachment`). -/
structure AttachRec where
  name : String
  type : String
  source : String
  deriving DecidableEq, Repr

/-- The mutable result record behind an `ExecutableItemWrapper` (the `info`
field shared by tests, fixtures and steps): status, stage, status details,
attachments and timing.  A freshly constructed item has no status and, per the
spec's report-model section, a not-yet-started stage (`scheduled`); `start` and
`stop` are set once by `AllureStep`'s constructor and `endStep`. -/
structure ItemState where
  status : Option Status := none
  stage : Stage := .scheduled
  detailsMessage : Option String := none
  detailsTrace : Option String := none
  attachments : List AttachRec := []
  start : Option Nat := none
  stop : Option Nat := none
  deriving DecidableEq, Repr

/-- Source `ExecutableItemWrapper.logStep(status)`: sets stage FINISHED then the
given status. -/
def logStep (st : ItemState) (s : Status) : ItemState :=
  { st with stage := Stage.finished, status := some s }

/-- A synchronous run of a wrapped body either returns a value or throws. -/
inductive SyncOutcome (α : Type) where
  | ret : α → SyncOutcome α
  | throwErr : JsError → SyncOutcome α

/-- What a call of the function returned by `wrap` yields to its caller:
a normal value, the caught error object (returned, not rethrown), or
`undefined`. -/
inductive WrapRet (α : Type) where
  | value : α → WrapRet α
  | errObj : JsError → WrapRet α
  | undef : WrapRet α

/-- The tail of `wrap` for a non-promise `result`:
`if (!this.status) this.status = Status.PASSED; this.stage = Stage.FINISHED`. -/
def finishNonPromise (st : ItemState) : ItemState :=
  { st with status := some (st.status.getD Status.passed), stage := Stage.finished }

/-- Source `ExecutableItemWrapper.wrap`, synchronous body case: sets stage RUNNING,
runs the body in a try/catch; a caught error with truthy `stack` and truthy
`message` records FAILED/FINISHED with the message as detail and the full
stack as trace, and becomes the `result` (the subsequent
`if (this.detailsTrace) this.detailsTrace = this.detailsTrace.replace(...)`
is dead code: `detailsTrace` and `detailsMessage` are setter-only accessors,
so reading `this.detailsTrace` yields `undefined` and the guard never
fires — the stored trace is the stack unchanged); a caught error with only
one of the two becomes the `result` with nothing recorded; a caught error
with neither is swallowed (`result` stays `undefined`).  The non-promise tail
then fills in PASSED when no status was set and returns `result` — the error
is never rethrown. -/
def wrapSync (st : ItemState) (body : SyncOutcome α) : ItemState × WrapRet α :=
  let st := { st with stage := Stage.running }
  match body with
  | .ret v => (finishNonPromise st, .value v)
  | .throwErr e =>
    if truthy e.stack || truthy e.message then
      if truthy e.stack && truthy e.message then
        let st := { st with status := some Status.failed, stage := Stage.finished,
                            detailsMessage := some e.message,
                            detailsTrace := some e.stack }
        (finishNonPromise st, .errObj e)
      else
        (finishNonPromise st, .errObj e)
    else
      (finishNonPromise st, .undef)

/-- A returned promise either resolves with a value or rejects; a rejection
with a falsy value (`null`, `undefined`, …) is `rejects none`. -/
inductive AsyncOutcome (α : Type) where
  | resolves : α → AsyncOutcome α
  | rejects : Option JsError → AsyncOutcome α

/-- Source `ExecutableItemWrapper.wrap`, promise-returning body case: on resolve,
PASSED (when no status was set) and FINISHED, passing the value through; on
reject, stage INTERRUPTED and (when no status was set) BROKEN, then — only for
a truthy rejection value with truthy `stack` and truthy `message` — FAILED and
FINISHED with the message as detail and the full stack as trace (as in the
synchronous branch, the message-removal step guarded by
`if (this.detailsTrace)` is dead code, since that accessor has no getter).
The catch handler returns nothing, so the promise the caller holds resolves
with `undefined`: the rejection is not re-surfaced. -/
def wrapAsync (st : ItemState) (body : AsyncOutcome α) : ItemState × WrapRet α :=
  let st := { st with stage := Stage.running }
  match body with
  | .resolves v =>
    ({ st with status := some (st.status.getD Status.passed), stage := Stage.finished },
     .value v)
  | .rejects eo =>
    let st := { st with stage := Stage.interrupted }
    let st := { st with status := some (st.status.getD Status.broken) }
    match eo with
    | none => (st, .undef)
    | some e =>
      if truthy e.stack && truthy e.message then
        ({ st with status := some Status.failed, stage := Stage.finished,
                   detailsMessage := some e.message,
                   detailsTrace := some e.stack }, .undef)
      else
        (st, .undef)

/-- A JavaScript value, as far as the wrapper's calling convention needs:
the body of a step is declared with a `StepInterface` parameter, so we track
whether what it is bound to is an array, a step object, or `undefined`. -/
inductive JsValue where
  | undef : JsValue
  | str : String → JsValue
  | arr : List JsValue → JsValue
  | stepObj : JsValue

/-- The call `fun(args)` inside `wrap`: the body is invoked with exactly one
argument, the raw `args` array of the wrapped function (not spread).  A JS
function body is modelled as a function of its full received argument list. -/
def wrapSyncInvoke (st : ItemState) (body : List JsValue → SyncOutcome JsValue)
    (args : List JsValue) : ItemState × WrapRet JsValue :=
  wrapSync st (body [JsValue.arr args])

/-- Binding of a JS function's first declared parameter from the received
argument list (`undefined` when no argument was passed). -/
def bindFirstParam : List JsValue → JsValue
  | [] => JsValue.undef
  | v :: _ => v

/-! ### ANSI stripping (external collaborator) -/

/-- Scanner mode while stripping ANSI escapes. -/
inductive AnsiMode where
  | normal | esc | csi
  deriving DecidableEq, Repr

/-- Modelled from the spec: the external `strip-ansi` collaborator ("ANSI-escape
stripping" is excluded from the core as a string utility, its source is not in
the repository snapshot).  Removes CSI sequences `ESC [ … finalByte` (final
byte in `0x40`–`0x7e`) and two-character `ESC x` sequences. -/
def stripAnsiGo : AnsiMode → List Char → List Char
  | _, [] => []
  | .normal, c :: rest =>
    if c.toNat = 0x1b then stripAnsiGo .esc rest else c :: stripAnsiGo .normal rest
  | .esc, c :: rest =>
    if c = '[' then stripAnsiGo .csi rest else stripAnsiGo .normal rest
  | .csi, c :: rest =>
    if 0x40 ≤ c.toNat ∧ c.toNat ≤ 0x7e then stripAnsiGo .normal rest
    else stripAnsiGo .csi rest

/-- Modelled from the spec: `stripAnsi` on a JS string. -/
def stripAnsi (s : String) : String := String.mk (stripAnsiGo .normal s.data)

/-! ### The reporter's report model and state -/

/-- A label attached to a test (`{ name, value }`). -/
structure LabelKV where
  name : String
  value : String
  deriving DecidableEq, Repr

/-- Modelled from the spec: label names used for report categorization
(parent-suite / suite / sub-suite / package / thread); the `LabelName` enum of
`allure-js-commons` is not in the repository snapshot, only its keys are used
by the reporter, so the values stand for those keys. -/
def PARENT_SUITE : String := "parentSuite"

/-- Spec label-name key: suite. -/
def SUITE : String := "suite"

/-- Spec label-name key: sub-suite. -/
def SUB_SUITE : String := "subSuite"

/-- Spec label-name key: package. -/
def PACKAGE : String := "package"

/-- Spec label-name key: worker thread. -/
def THREAD : String := "thread"

/-- Modelled from the spec: a Group is a named container created by
`startGroup` as a child of the current group (or of the runtime root, parent
`none`), sealed by `endGroup`; `AllureGroup`/`AllureRuntime` of
`allure-js-commons` are not in the repository snapshot. -/
structure GroupData where
  name : String
  parent : Option Nat := none
  closed : Bool := false
  deriving DecidableEq, Repr

/-- Modelled from the spec: a Test record created by `startTest` inside a
Group, with display name, fully-qualified name and history identity, ordered
labels appended by `addLabel`, the shared executable-item record, and a
finalized flag set by `endTest`; `AllureTest` of `allure-js-commons` is not in
the repository snapshot. -/
structure TestData where
  name : String
  parentGroup : Nat
  fullName : String := ""
  historyId : String := ""
  labels : List LabelKV := []
  item : ItemState := {}
  ended : Bool := false
  deriving DecidableEq, Repr

/-- The executable item owning a step (`this.currentExecutable` resolution
targets): a running test, a running fixture, or an enclosing step. -/
inductive StepOwner where
  | ofTest : Nat → StepOwner
  | ofFixture : Nat → StepOwner
  | ofStep : Nat → StepOwner
  deriving DecidableEq, Repr

/-- A step record: `startStep` pushes a fresh `stepResult` into its owner's
step list (the owner is recorded here) and sets `start`. -/
structure StepData where
  name : String
  owner : StepOwner
  item : ItemState := {}
  deriving DecidableEq, Repr

/-- The `JasmineAllureReporter` state: arenas of all groups/tests/steps/
fixtures ever created (indices are identities), the group stack, the label
buffer stack, the running test, the step stack, the running fixture
executable, the suite-mode flag, the `console.error` log, and a logical clock
standing for `Date.now()`. -/
structure ReporterState where
  groups : List GroupData := []
  tests : List TestData := []
  stepsArena : List StepData := []
  fixtures : List ItemState := []
  groupStack : List Nat := []
  labelStack : List (List LabelKV) := [[]]
  runningTest : Option Nat := none
  stepStack : List Nat := []
  runningExecutable : Option Nat := none
  isSuite : Bool := false
  anomalies : List String := []
  clock : Nat := 0
  deriving DecidableEq, Repr

/-- The reporter state as constructed (`groupStack = []`, `labelStack = [[]]`,
no running test, empty step stack, `isSuite = false`). -/
def initState : ReporterState := {}

/-- Apply `f` at index `i` of a list, leaving other entries (and an
out-of-range index) unchanged. -/
def updateAt (l : List α) (i : Nat) (f : α → α) : List α :=
  match l.get? i with
  | some a => l.set i (f a)
  | none => l

/-- Update the test record at index `i`. -/
def updTest (s : ReporterState) (i : Nat) (f : TestData → TestData) : ReporterState :=
  { s with tests := updateAt s.tests i f }

/-- Update the step record at index `i`. -/
def updStep (s : ReporterState) (i : Nat) (f : StepData → StepData) : ReporterState :=
  { s with stepsArena := updateAt s.stepsArena i f }

/-- Source `getCurrentGroup`: the top of the group stack, `null` when empty. -/
def getCurrentGroup (s : ReporterState) : Option Nat := s.groupStack.getLast?

/-- Source `this.groupStack[i].name` (bottom-indexed, as the label derivation uses
it); out-of-range reads give `""`. -/
def groupNameAt (s : ReporterState) (i : Nat) : String :=
  match s.groupStack.get? i with
  | some gi =>
    match s.groups.get? gi with
    | some g => g.name
    | none => ""
  | none => ""

/-- Source `(parent || runtime).startGroup(name)`: create a group in the arena and
return its index. -/
def startGroupIn (s : ReporterState) (parent : Option Nat) (name : String) :
    ReporterState × Nat :=
  ({ s with groups := s.groups ++ [{ name := name, parent := parent }] },
   s.groups.length)

/-- Source `group.startTest(name)`: create a test in the arena and return its index. -/
def startTestIn (s : ReporterState) (parent : Nat) (name : String) :
    ReporterState × Nat :=
  ({ s with tests := s.tests ++ [{ name := name, parentGroup := parent }] },
   s.tests.length)

/-- Source `group.endGroup()`: seal the group. -/
def closeGroup (s : ReporterState) (i : Nat) : ReporterState :=
  { s with groups := updateAt s.groups i (fun g => { g with closed := true }) }

/-- Source `test.endTest()`: finalize the test and stamp its stop time. -/
def endTestIn (s : ReporterState) (i : Nat) : ReporterState :=
  let s' := updTest s i
    (fun td => { td with ended := true, item := { td.item with stop := some s.clock } })
  { s' with clock := s'.clock + 1 }

/-- Append a label to the innermost label buffer (`[b] → [b ++ [x]]`); an
empty buffer stack ignores the label, as `addLabel`'s length guard does. -/
def pushLastBuf : List (List LabelKV) → LabelKV → List (List LabelKV)
  | [], _ => []
  | [b], x => [b ++ [x]]
  | b :: bs, x => b :: pushLastBuf bs x

/-- Source `JasmineAllureReporter.addLabel(name, value)`: buffer a label at the
current nesting level. -/
def addLabelBuf (s : ReporterState) (n v : String) : ReporterState :=
  { s with labelStack := pushLastBuf s.labelStack ⟨n, v⟩ }

/-- Source `allureTest.addLabel(name, value)`: append a label onto the test record. -/
def testAddLabel (s : ReporterState) (i : Nat) (n v : String) : ReporterState :=
  updTest s i (fun td => { td with labels := td.labels ++ [⟨n, v⟩] })

/-! ### Lifecycle event handlers -/

/-- Source `JasmineAllureReporter.suiteStarted`: set suite-mode, open a group named
after the describe block under the current group (or the root), push it and a
fresh label buffer. -/
def suiteStarted (s : ReporterState) (description : String) : ReporterState :=
  let s := { s with isSuite := true }
  let p := getCurrentGroup s
  let gn := startGroupIn s p description
  { gn.1 with groupStack := gn.1.groupStack ++ [gn.2],
              labelStack := gn.1.labelStack ++ [[]] }

/-- The spec descriptor delivered by the host engine on `specStarted`; the
file path is taken pre-split into segments (`path.relative(...).split("/")`
is external path munging the spec excludes from the core). -/
structure SpecInfo where
  description : String
  fullName : String
  testPathArr : List String := []
  deriving DecidableEq, Repr

/-- The head of `specStarted` outside suite-mode: when the pre-split spec
path is nonempty, open a one-time top-level group named after its first
segment and push a label buffer (a no-op in suite-mode or for an empty
path). -/
def specStartedFileGroup (s : ReporterState) (spec : SpecInfo) : ReporterState :=
  if s.isSuite then s
  else
    match spec.testPathArr with
    | [] => s
    | p :: _ =>
      let gn := startGroupIn s (getCurrentGroup s) p
      { gn.1 with groupStack := gn.1.groupStack ++ [gn.2],
                  labelStack := gn.1.labelStack ++ [[]] }

/-- Source `JasmineAllureReporter.specStarted`: outside suite-mode, synthesize a
top-level group from the first path segment; require an active group; open the
`"Test wrapper"` group and start the test inside it; only then check for an
already-running test and throw `"Test is starting before other ended!"`
(mutations up to that point are kept); otherwise install the test, stamp
full name / history id / RUNNING, derive suite labels from the group stack
(suite-mode) or the path segments, buffer a thread label when a Jest worker id
is present, and flush every buffered label onto the test. -/
def specStarted (s : ReporterState) (jestWorkerId : Option String)
    (spec : SpecInfo) : ReporterState × Option String :=
  let specPathArr := if s.isSuite then ([] : List String) else spec.testPathArr
  let s := specStartedFileGroup s spec
  match getCurrentGroup s with
  | none => (s, some "No active suite")
  | some top =>
    let gn := startGroupIn s (some top) "Test wrapper"
    let s := { gn.1 with groupStack := gn.1.groupStack ++ [gn.2] }
    let tn := startTestIn s gn.2 spec.description
    let s := tn.1
    let t := tn.2
    if s.runningTest.isSome then
      (s, some "Test is starting before other ended!")
    else
      let s := { s with runningTest := some t }
      let s := updTest s t
        (fun td => { td with fullName := spec.fullName, historyId := spec.fullName,
                             item := { td.item with stage := Stage.running } })
      let s :=
        if s.isSuite then
          let s := if 1 < s.groupStack.length then
              testAddLabel s t PARENT_SUITE (groupNameAt s 0) else s
          let s := if 2 < s.groupStack.length then
              testAddLabel s t SUITE (groupNameAt s 1) else s
          let s := if 3 < s.groupStack.length then
              testAddLabel s t SUB_SUITE (groupNameAt s 2) else s
          s
        else s
      let s :=
        if s.isSuite = false ∧ 1 < specPathArr.length then
          let n := specPathArr.length
          let s := testAddLabel s t SUB_SUITE ((specPathArr.get? (n - 1)).getD "")
          let s := testAddLabel s t SUITE ((specPathArr.get? (n - 2)).getD "")
          let s := testAddLabel s t PARENT_SUITE
            (String.intercalate "/" (specPathArr.take (n - 2)))
          let s := testAddLabel s t PACKAGE ((specPathArr.get? 0).getD "")
          s
        else s
      let s :=
        match jestWorkerId with
        | some wid => addLabelBuf s THREAD wid
        | none => s
      let s := s.labelStack.foldl
        (fun a buf => buf.foldl (fun a2 l => testAddLabel a2 t l.name l.value) a) s
      (s, none)

/-- One failure record of the host engine (`jasmine.FailedExpectation`). -/
structure FailedExpectation where
  matcherName : String
  message : String
  stack : String
  deriving DecidableEq, Repr

/-- The spec result delivered on `specDone`. -/
structure SpecResult where
  status : String
  pendingReason : String := ""
  failedExpectations : List FailedExpectation := []
  deriving DecidableEq, Repr

/-- Source `findMessageAboutThrow`: the first failure record whose matcher name is
empty (an explicit throw rather than a failed expectation). -/
def findMessageAboutThrow (es : List FailedExpectation) : Option FailedExpectation :=
  es.find? (fun e => e.matcherName = "")

/-- Source `findAnyError`: the first failure record, if any. -/
def findAnyError (es : List FailedExpectation) : Option FailedExpectation :=
  es.head?

/-- One iteration of `specDone`'s leaked-step loop: mark the step
BROKEN/INTERRUPTED with the synthetic message and `endStep()` it (stop time =
current clock). -/
def forceCloseStep (a : ReporterState) (si : Nat) : ReporterState :=
  let a' := updStep a si (fun sd => { sd with item := { sd.item with
      status := some Status.broken, stage := Stage.interrupted,
      detailsMessage := some "Test ended unexpectedly before step could complete.",
      stop := some a.clock } })
  { a' with clock := a'.clock + 1 }

/-- The leaked-step block at the top of `specDone`: when the step stack is not
empty, log the anomaly, force-close every open step from innermost to
outermost (`stepStack.reverse()`), and clear the stack. -/
def specDoneSteps (s : ReporterState) : ReporterState :=
  if 0 < s.stepStack.length then
    let s := { s with anomalies := s.anomalies ++
      ["Allure reporter issue: step stack is not empty on specDone"] }
    let s := (s.stepStack.reverse).foldl forceCloseStep s
    { s with stepStack := [] }
  else s

/-- The status-mapping block of `specDone`: passed/broken/failed map onto the
same status with stage FINISHED; pending/disabled/excluded/todo collapse to
SKIPPED with stage PENDING and the pending reason (default
`"Suite disabled"`). -/
def specDoneStatus (s : ReporterState) (t : Nat) (spec : SpecResult) : ReporterState :=
  let s := if spec.status = "passed" then
      updTest s t (fun td => { td with item :=
        { td.item with status := some Status.passed, stage := Stage.finished } })
    else s
  let s := if spec.status = "broken" then
      updTest s t (fun td => { td with item :=
        { td.item with status := some Status.broken, stage := Stage.finished } })
    else s
  let s := if spec.status = "failed" then
      updTest s t (fun td => { td with item :=
        { td.item with status := some Status.failed, stage := Stage.finished } })
    else s
  let reason := if spec.pendingReason ≠ "" then spec.pendingReason else "Suite disabled"
  if spec.status = "pending" ∨ spec.status = "disabled" ∨
     spec.status = "excluded" ∨ spec.status = "todo" then
    updTest s t (fun td => { td with item :=
      { td.item with status := some Status.skipped, stage := Stage.pending,
                     detailsMessage := some reason } })
  else s

/-- The exception-capture block of `specDone`: select the first empty-matcher
failure, falling back to the first failure; strip ANSI codes from the message,
store it, and — when the stack is truthy — store the stripped stack with the
first occurrence of the message removed. -/
def specDoneException (s : ReporterState) (t : Nat) (spec : SpecResult) : ReporterState :=
  match (findMessageAboutThrow spec.failedExpectations).orElse
      (fun _ => findAnyError spec.failedExpectations) with
  | none => s
  | some e =>
    let message := stripAnsi e.message
    let s := updTest s t (fun td => { td with item :=
      { td.item with detailsMessage := some message } })
    if truthy e.stack then
      updTest s t (fun td => { td with item :=
        { td.item with detailsTrace := some (replaceFirst (stripAnsi e.stack) message) } })
    else s

/-- Source `JasmineAllureReporter.specDone`: throws when no test is running;
force-closes leaked steps; maps the terminal status; captures the selected
failure; ends the test; pops the `"Test wrapper"` group; outside suite-mode,
additionally pops the synthesized file group and its label buffer. -/
def specDone (s : ReporterState) (spec : SpecResult) : ReporterState × Option String :=
  match s.runningTest with
  | none => (s, some "specDone while no test is running")
  | some t =>
    let s := specDoneSteps s
    let s := specDoneStatus s t spec
    let s := specDoneException s t spec
    let s := endTestIn s t
    let s := { s with runningTest := none }
    match getCurrentGroup s with
    | none => (s, some "No active group")
    | some g =>
      let s := closeGroup s g
      let s := { s with groupStack := s.groupStack.dropLast }
      if s.isSuite then (s, none)
      else
        match getCurrentGroup s with
        | none => (s, some "No active suite")
        | some g2 =>
          let s := closeGroup s g2
          ({ s with groupStack := s.groupStack.dropLast,
                    labelStack := s.labelStack.dropLast }, none)

/-- Source `JasmineAllureReporter.suiteDone`: logs (does not throw) an anomaly when
called outside suite-mode or while a test is still running, then throws
`"No active suite."` when no group is open, else seals and pops the current
group together with its label buffer. -/
def suiteDone (s : ReporterState) : ReporterState × Option String :=
  let s := if s.isSuite then s else
    { s with anomalies := s.anomalies ++
      ["Allure reporter issue: suiteDone called without suiteStart context."] }
  let s := if s.runningTest.isSome then
    { s with anomalies := s.anomalies ++
      ["Allure reporter issue: A test was running on suiteDone."] }
    else s
  match getCurrentGroup s with
  | none => (s, some "No active suite.")
  | some g =>
    let s := closeGroup s g
    ({ s with groupStack := s.groupStack.dropLast,
              labelStack := s.labelStack.dropLast }, none)

/-! ### The user-facing interface (`JasmineAllureInterface`, `WrappedStep`) -/

/-- Source `JasmineAllureInterface.currentExecutable`: the innermost open step, else
the running fixture executable, else the running test (whose getter throws
`"No active test"` when absent, modelled as `none`). -/
def currentExecutableRef (s : ReporterState) : Option StepOwner :=
  match s.stepStack.getLast? with
  | some si => some (StepOwner.ofStep si)
  | none =>
    match s.runningExecutable with
    | some fi => some (StepOwner.ofFixture fi)
    | none =>
      match s.runningTest with
      | some t => some (StepOwner.ofTest t)
      | none => none

/-- Source `JasmineAllureInterface.startStep(name)`: create a fresh step under the
current executable (fresh `stepResult`, `start` stamped), push it on the step
stack, and return its index. -/
def ifaceStartStep (s : ReporterState) (name : String) :
    Except String (ReporterState × Nat) :=
  match currentExecutableRef s with
  | none => Except.error "No active test"
  | some o =>
    let idx := s.stepsArena.length
    let sd : StepData := { name := name, owner := o, item := { start := some s.clock } }
    Except.ok ({ s with stepsArena := s.stepsArena ++ [sd], clock := s.clock + 1,
                        stepStack := s.stepStack ++ [idx] }, idx)

/-- Source `WrappedStep.endStep()`: pop the step stack and stamp the step's stop
time. -/
def wrappedEndStep (s : ReporterState) (idx : Nat) : ReporterState :=
  let s := { s with stepStack := s.stepStack.dropLast }
  let s' := updStep s idx (fun sd => { sd with item := { sd.item with stop := some s.clock } })
  { s' with clock := s'.clock + 1 }

/-- A fallback step record for an (unreachable) out-of-range arena read. -/
def dummyStep : StepData := { name := "", owner := StepOwner.ofTest 0 }

/-- Source `JasmineAllureInterface.step(name, body)` for a synchronous body:
`startStep`, then `WrappedStep.run` = `this.step.wrap(body)()` (zero
arguments at the call site), then `endStep`; `wrap` never rethrows for a
synchronous body, so the catch-and-endStep branch of `step` is not taken and
the non-promise branch closes the step and passes the result through. -/
def ifaceStepSync (s : ReporterState) (name : String)
    (body : List JsValue → SyncOutcome JsValue) :
    Except String (ReporterState × WrapRet JsValue) :=
  match ifaceStartStep s name with
  | Except.error e => Except.error e
  | Except.ok si =>
    let s := si.1
    let idx := si.2
    let cur := ((s.stepsArena.get? idx).getD dummyStep).item
    let ir := wrapSyncInvoke cur body []
    let s := updStep s idx (fun sd => { sd with item := ir.1 })
    let s := wrappedEndStep s idx
    Except.ok (s, ir.2)

/-- An attachment argument of `JasmineAllureInterface.logStep`
(`{ name, content, type }`). -/
structure AttachInput where
  name : String
  content : String
  type : String
  deriving DecidableEq, Repr

/-- Source `JasmineAllureInterface.attachment(name, content, type)`: write the
content through the external attachment writer (modelled from the spec:
`write(content, mediaType) -> fileReference`, the reference standing for the
written content) and add the reference to the current executable.  The
`none` owner case would throw `"No active test"`; every caller in this file
reaches it with an open step. -/
def ifaceAttachment (s : ReporterState) (name content type : String) : ReporterState :=
  let file := content
  match currentExecutableRef s with
  | some (StepOwner.ofStep si) =>
    updStep s si (fun sd => { sd with item :=
      { sd.item with attachments := sd.item.attachments ++ [⟨name, type, file⟩] } })
  | some (StepOwner.ofFixture fi) =>
    { s with fixtures := updateAt s.fixtures fi (fun it =>
        { it with attachments := it.attachments ++ [⟨name, type, file⟩] }) }
  | some (StepOwner.ofTest t) =>
    updTest s t (fun td => { td with item :=
      { td.item with attachments := td.item.attachments ++ [⟨name, type, file⟩] } })
  | none => s

/-- Source `JasmineAllureInterface.logStep(name, status, attachments?)`: start a
step, attach each given attachment (the current executable is now that step),
record the explicit status via `logStep`, and close the step. -/
def ifaceLogStep (s : ReporterState) (name : String) (status : Status)
    (attachments : List AttachInput) : Except String ReporterState :=
  match ifaceStartStep s name with
  | Except.error e => Except.error e
  | Except.ok si =>
    let s := si.1
    let idx := si.2
    let s := attachments.foldl (fun a r => ifaceAttachment a r.name r.content r.type) s
    let s := updStep s idx (fun sd => { sd with item := logStep sd.item status })
    let s := wrappedEndStep s idx
    Except.ok s

/-! ### Observable shapes and concrete scenarios used by the theorems -/

/-- The shape `specDone` leaves on a leaked step: exactly the fields its
force-close loop assigns (BROKEN, INTERRUPTED, the synthetic message, and a
stop time from `endStep`). -/
def forceClosedStep (sd : StepData) : Prop :=
  sd.item.status = some Status.broken ∧ sd.item.stage = Stage.interrupted ∧
  sd.item.detailsMessage = some "Test ended unexpectedly before step could complete." ∧
  sd.item.stop.isSome = true

/-- The step at arena index `si` of a state has been force-closed. -/
def markedAt (a : ReporterState) (si : Nat) : Prop :=
  ∃ sd, a.stepsArena[si]? = some sd ∧ forceClosedStep sd

/-- C6 scenario, step 1: suite "A" entered. -/
def c6s1 : ReporterState := suiteStarted initState "A"

/-- C6 scenario, step 2: suite "B" entered. -/
def c6s2 : ReporterState := suiteStarted c6s1 "B"

/-- C6 scenario, step 3: spec "t1" entered (no labels accumulated, no worker
id). -/
def c6s3 : ReporterState × Option String :=
  specStarted c6s2 none { description := "t1", fullName := "A B t1" }

/-- C6 scenario, step 4: spec "t1" exited with terminal status passed. -/
def c6s4 : ReporterState × Option String := specDone c6s3.1 { status := "passed" }

/-- C6 scenario, step 5: suite "B" exited. -/
def c6s5 : ReporterState × Option String := suiteDone c6s4.1

/-- C6 scenario, step 6: suite "A" exited. -/
def c6s6 : ReporterState × Option String := suiteDone c6s5.1

/-- Base state for the C8 statements: suite "A" entered, then spec "t1"
entered, so test 0 is running and the group stack holds suite "A" and the
test wrapper. -/
def c8base : ReporterState :=
  (specStarted (suiteStarted initState "A") none
    { description := "t1", fullName := "A t1" }).1

/-- C4 scenario: suite "A" entered, spec "t" entered. -/
def c4pre0 : ReporterState :=
  (specStarted (suiteStarted initState "A") none
    { description := "t", fullName := "f" }).1

/-- C4 scenario: an outer step opened and left open. -/
def c4pre1 : ReporterState :=
  match ifaceStartStep c4pre0 "outer" with
  | Except.ok p => p.1
  | Except.error _ => c4pre0

/-- C4 scenario: an inner step opened inside the outer one and left open, so
the step stack holds both when the spec exits. -/
def c4pre : ReporterState :=
  match ifaceStartStep c4pre1 "inner" with
  | Except.ok p => p.1
  | Except.error _ => c4pre1

/-- Failure records for the C8 counterexample: one explicit throw (empty
matcher name) whose message "X" occurs in the middle of the stack "aXb". -/
def c8cexFe : List FailedExpectation :=
  [{ matcherName := "", message := "X", stack := "aXb" }]

/-- The failure record used by the C8 witness. -/
def c8witE : FailedExpectation :=
  { matcherName := "", message := "m", stack := "m trail" }

/-- A state with suite "A" entered and spec "t1" already running, used to
exercise the overlapping-test paths. -/
def overlapState : ReporterState :=
  (specStarted (suiteStarted initState "A") none
    { description := "t1", fullName := "f1" }).1

/-! ## Helper lemmas -/

theorem updateAt_length (l : List α) (i : Nat) (f : α → α) :
    (updateAt l i f).length = l.length := by
  unfold updateAt
  cases h : l.get? i <;> simp

theorem updateAt_getElem_ne (l : List α) (i j : Nat) (f : α → α) (h : i ≠ j) :
    (updateAt l i f)[j]? = l[j]? := by
  unfold updateAt
  cases hi : l.get? i with
  | none => rfl
  | some a => simp [List.getElem?_set_ne h]

theorem updateAt_getElem_eq (l : List α) (i : Nat) (f : α → α) :
    (updateAt l i f)[i]? = (l[i]?).map f := by
  unfold updateAt
  cases hi : l.get? i with
  | none =>
    rw [List.get?_eq_getElem?] at hi
    simp [hi]
  | some a =>
    have hlt : i < l.length := by
      by_contra hge
      rw [List.get?_eq_none.mpr (Nat.le_of_not_lt hge)] at hi
      cases hi
    rw [List.get?_eq_getElem?] at hi
    simp [hi, List.getElem?_set_eq_of_lt (f a) hlt]

theorem updateAt_get_ne (l : List α) (i j : Nat) (f : α → α) (h : i ≠ j) :
    (updateAt l i f).get? j = l.get? j := by
  simp [List.get?_eq_getElem?, updateAt_getElem_ne l i j f h]

theorem updateAt_get_eq (l : List α) (i : Nat) (f : α → α) :
    (updateAt l i f).get? i = (l.get? i).map f := by
  simp [List.get?_eq_getElem?, updateAt_getElem_eq l i f]

/-! ## C1 -/

/-- Claim C1, counterexample: a wrapped body that synchronously throws a plain
value (empty message and stack) is recorded as passed, not failed, and the
wrapped call returns `undefined`, so the thrown value is not observable by the
caller at all. -/
theorem c1_counterexample :
    (wrapSync ({} : ItemState)
        (SyncOutcome.throwErr (α := Unit) { message := "", stack := "" })).1.status ≠
      some Status.failed ∧
    (wrapSync ({} : ItemState)
        (SyncOutcome.throwErr (α := Unit) { message := "", stack := "" })).1.status =
      some Status.passed ∧
    (wrapSync ({} : ItemState)
        (SyncOutcome.throwErr (α := Unit) { message := "", stack := "" })).2 =
      WrapRet.undef :=
  ⟨by decide, by decide, rfl⟩

/-- Claim C1 as amended: for every wrapped body that synchronously throws an
error exposing both a message and a stack, the wrapper records status failed
and stage finished with the detail message equal to the thrown error's
message, and the caught error object is returned to the caller as the call's
result — it is not rethrown. -/
theorem c1_sync_throw_failed (st : ItemState) (e : JsError)
    (hm : truthy e.message = true) (hs : truthy e.stack = true) :
    (wrapSync st (SyncOutcome.throwErr (α := Unit) e)).1.status = some Status.failed ∧
    (wrapSync st (SyncOutcome.throwErr (α := Unit) e)).1.stage = Stage.finished ∧
    (wrapSync st (SyncOutcome.throwErr (α := Unit) e)).1.detailsMessage = some e.message ∧
    (wrapSync st (SyncOutcome.throwErr (α := Unit) e)).2 = WrapRet.errObj e := by
  simp [wrapSync, finishNonPromise, hm, hs]

/-- Witness for `c1_sync_throw_failed` at a concrete error. -/
theorem c1_sync_throw_failed_witness :
    (wrapSync ({} : ItemState) (SyncOutcome.throwErr (α := Unit)
        { message := "boom", stack := "Error: boom" })).1.status = some Status.failed ∧
    (wrapSync ({} : ItemState) (SyncOutcome.throwErr (α := Unit)
        { message := "boom", stack := "Error: boom" })).1.stage = Stage.finished ∧
    (wrapSync ({} : ItemState) (SyncOutcome.throwErr (α := Unit)
        { message := "boom", stack := "Error: boom" })).1.detailsMessage = some "boom" ∧
    (wrapSync ({} : ItemState) (SyncOutcome.throwErr (α := Unit)
        { message := "boom", stack := "Error: boom" })).2 =
      WrapRet.errObj { message := "boom", stack := "Error: boom" } :=
  c1_sync_throw_failed {} { message := "boom", stack := "Error: boom" }
    (by decide) (by decide)

/-! ## C2 -/

/-- Claim C2, counterexample: a wrapped body that synchronously throws a value
exposing a message but no stack (so not both) is recorded as passed, not
broken. -/
theorem c2_counterexample :
    (wrapSync ({} : ItemState)
        (SyncOutcome.throwErr (α := Unit) { message := "only a message", stack := "" })).1.status ≠
      some Status.broken ∧
    (wrapSync ({} : ItemState)
        (SyncOutcome.throwErr (α := Unit) { message := "only a message", stack := "" })).1.status =
      some Status.passed :=
  ⟨by decide, by decide⟩

/-- Claim C2 as amended: an asynchronous rejection whose value does not expose
both a message and a stack, on an item with no status yet, is recorded as
broken with stage interrupted and the detail message untouched; only errors
exposing both a message and a stack are ever recorded as failed (synchronously
or asynchronously); a synchronously thrown value lacking both is recorded as
passed, not broken. -/
theorem c2_broken_classification :
    (∀ (st : ItemState) (eo : Option JsError),
      st.status = none →
      (∀ e, eo = some e → (truthy e.stack && truthy e.message) = false) →
      (wrapAsync st (AsyncOutcome.rejects (α := Unit) eo)).1.status = some Status.broken ∧
      (wrapAsync st (AsyncOutcome.rejects (α := Unit) eo)).1.stage = Stage.interrupted ∧
      (wrapAsync st (AsyncOutcome.rejects (α := Unit) eo)).1.detailsMessage =
        st.detailsMessage) ∧
    (∀ (st : ItemState) (b : SyncOutcome Unit),
      (wrapSync st b).1.status = some Status.failed →
      st.status = some Status.failed ∨
        ∃ e, b = SyncOutcome.throwErr e ∧ truthy e.stack = true ∧ truthy e.message = true) ∧
    (∀ (st : ItemState) (b : AsyncOutcome Unit),
      (wrapAsync st b).1.status = some Status.failed →
      st.status = some Status.failed ∨
        ∃ e, b = AsyncOutcome.rejects (some e) ∧
          truthy e.stack = true ∧ truthy e.message = true) ∧
    (∀ (st : ItemState) (e : JsError),
      st.status = none → truthy e.message = false → truthy e.stack = false →
      (wrapSync st (SyncOutcome.throwErr (α := Unit) e)).1.status = some Status.passed) := by
  refine ⟨?_, ?_, ?_, ?_⟩
  · intro st eo h0 hnb
    cases eo with
    | none => simp [wrapAsync, h0]
    | some e =>
      have he := hnb e rfl
      simp [wrapAsync, h0, he]
  · intro st b hfail
    cases b with
    | ret v =>
      left
      cases hst : st.status with
      | none => simp [wrapSync, finishNonPromise, hst] at hfail
      | some x =>
        simp only [wrapSync, finishNonPromise, hst, Option.getD_some] at hfail
        exact hfail
    | throwErr e =>
      by_cases hs : truthy e.stack = true <;> by_cases hm : truthy e.message = true
      · exact Or.inr ⟨e, rfl, hs, hm⟩
      all_goals
        rw [Bool.not_eq_true] at *
        left
        cases hst : st.status with
        | none => simp_all [wrapSync, finishNonPromise]
        | some x =>
          simp_all only [wrapSync, finishNonPromise, Option.getD_some, Bool.false_and,
            Bool.and_false, Bool.false_or, Bool.or_false, Bool.or_true, Bool.true_or,
            truthy]
          all_goals simp_all
  · intro st b hfail
    cases b with
    | resolves v =>
      left
      cases hst : st.status with
      | none => simp [wrapAsync, hst] at hfail
      | some x =>
        simp only [wrapAsync, hst, Option.getD_some] at hfail
        exact hfail
    | rejects eo =>
      cases eo with
      | none =>
        left
        cases hst : st.status with
        | none => simp [wrapAsync, hst] at hfail
        | some x =>
          simp only [wrapAsync, hst, Option.getD_some] at hfail
          exact hfail
      | some e =>
        by_cases hs : truthy e.stack = true <;> by_cases hm : truthy e.message = true
        · exact Or.inr ⟨e, rfl, hs, hm⟩
        all_goals
          rw [Bool.not_eq_true] at *
          left
          cases hst : st.status with
          | none => simp_all [wrapAsync]
          | some x =>
            simp_all only [wrapAsync, Option.getD_some, Bool.false_and, Bool.and_false]
            all_goals simp_all
  · intro st e h0 hm hs
    simp [wrapSync, finishNonPromise, h0, hm, hs]

/-- Witness for `c2_broken_classification` at a rejection with a falsy value
on a fresh item. -/
theorem c2_broken_classification_witness :
    (wrapAsync ({} : ItemState) (AsyncOutcome.rejects (α := Unit) none)).1.status =
      some Status.broken ∧
    (wrapAsync ({} : ItemState) (AsyncOutcome.rejects (α := Unit) none)).1.stage =
      Stage.interrupted ∧
    (wrapAsync ({} : ItemState) (AsyncOutcome.rejects (α := Unit) none)).1.detailsMessage =
      ({} : ItemState).detailsMessage :=
  c2_broken_classification.1 {} none rfl (fun _e h => nomatch h)

/-! ## C3 and C10 -/

theorem specStartedFileGroup_runningTest (s : ReporterState) (spec : SpecInfo) :
    (specStartedFileGroup s spec).runningTest = s.runningTest := by
  unfold specStartedFileGroup
  split
  · rfl
  · split <;> rfl

theorem specStartedFileGroup_of_suite (s : ReporterState) (spec : SpecInfo)
    (h : s.isSuite = true) : specStartedFileGroup s spec = s := by
  unfold specStartedFileGroup
  simp [h]

/-- Claim C3: delivering `specStarted` while a test is already running always
ends in a thrown error (never silent continuation), and `specDone` with no
running test throws its invariant-violation error. -/
theorem c3_no_overlapping_tests :
    (∀ (s : ReporterState) (w : Option String) (spec : SpecInfo),
      s.runningTest.isSome = true → ((specStarted s w spec).2).isSome = true) ∧
    (∀ (s : ReporterState) (sp : SpecResult),
      s.runningTest = none →
      (specDone s sp).2 = some "specDone while no test is running") := by
  constructor
  · intro s w spec h
    cases hg : getCurrentGroup (specStartedFileGroup s spec) with
    | none => simp [specStarted, hg]
    | some top =>
      simp [specStarted, hg, startTestIn, startGroupIn,
        specStartedFileGroup_runningTest, h]
  · intro s sp h
    simp [specDone, h]

/-- Witness for `c3_no_overlapping_tests`: a second `specStarted` on
`overlapState` errors, and `specDone` on the initial state errors. -/
theorem c3_no_overlapping_tests_witness :
    ((specStarted overlapState none { description := "t2", fullName := "f2" }).2).isSome
      = true ∧
    (specDone initState { status := "passed" }).2 =
      some "specDone while no test is running" :=
  ⟨c3_no_overlapping_tests.1 overlapState none
      { description := "t2", fullName := "f2" } (by decide),
   c3_no_overlapping_tests.2 initState { status := "passed" } rfl⟩

/-- Claim C10: the overlapping-test check is not atomic — by the time
`specStarted` throws the overlap error, the "Test wrapper" group has been
created and pushed onto the group stack and the new test has been started
inside it, and these mutations are kept. -/
theorem c10_overlap_check_not_atomic (s : ReporterState) (w : Option String)
    (spec : SpecInfo) (t0 : Nat)
    (hsuite : s.isSuite = true) (ht : s.runningTest = some t0)
    (hg : s.groupStack ≠ []) :
    (specStarted s w spec).2 = some "Test is starting before other ended!" ∧
    (specStarted s w spec).1.groups =
      s.groups ++ [{ name := "Test wrapper", parent := getCurrentGroup s }] ∧
    (specStarted s w spec).1.groupStack = s.groupStack ++ [s.groups.length] ∧
    (specStarted s w spec).1.tests =
      s.tests ++ [{ name := spec.description, parentGroup := s.groups.length }] ∧
    (specStarted s w spec).1.runningTest = some t0 := by
  have hfg : specStartedFileGroup s spec = s := specStartedFileGroup_of_suite s spec hsuite
  cases htop : getCurrentGroup s with
  | none =>
    unfold getCurrentGroup at htop
    exact absurd (List.getLast?_eq_none_iff.mp htop) hg
  | some top =>
    simp [specStarted, hfg, htop, startGroupIn, startTestIn, ht]

/-- Witness for `c10_overlap_check_not_atomic` on `overlapState`. -/
theorem c10_overlap_check_not_atomic_witness :
    (specStarted overlapState none { description := "t2", fullName := "f2" }).2 =
      some "Test is starting before other ended!" ∧
    (specStarted overlapState none { description := "t2", fullName := "f2" }).1.groups =
      overlapState.groups ++
        [{ name := "Test wrapper", parent := getCurrentGroup overlapState }] ∧
    (specStarted overlapState none { description := "t2", fullName := "f2" }).1.groupStack =
      overlapState.groupStack ++ [overlapState.groups.length] ∧
    (specStarted overlapState none { description := "t2", fullName := "f2" }).1.tests =
      overlapState.tests ++
        [{ name := "t2", parentGroup := overlapState.groups.length }] ∧
    (specStarted overlapState none { description := "t2", fullName := "f2" }).1.runningTest =
      some 0 :=
  c10_overlap_check_not_atomic overlapState none
    { description := "t2", fullName := "f2" } 0 (by decide) (by decide) (by decide)

/-! ## C5 -/

/-- Claim C5, counterexample: a suite-exited event arriving with no open
group — a stack-emptiness violation during teardown — is raised fatally
(`"No active suite."`) instead of being logged as an anomaly: after suite "A"
is entered and exited, a second suite-exited event throws. -/
theorem c5_counterexample :
    (suiteDone (suiteDone (suiteStarted initState "A")).1).2 = some "No active suite." ∧
    (suiteDone (suiteStarted initState "A")).1.groupStack = [] := by
  constructor <;> decide

/-- Claim C5 as amended: a suite-exited event outside suite-mode or while a
test is still running is only logged as an anomaly — as long as a group is
open, the handler does not throw, still pops the group and its label buffer
(so the run can finish), and leaves the running test untouched; but a
suite-exited with an empty group stack throws fatally (see the
counterexample), and overlapping tests throw immediately. -/
theorem c5_suiteDone_anomalies (s : ReporterState) (hg : s.groupStack ≠ []) :
    (suiteDone s).2 = none ∧
    (suiteDone s).1.groupStack = s.groupStack.dropLast ∧
    (suiteDone s).1.labelStack = s.labelStack.dropLast ∧
    (suiteDone s).1.runningTest = s.runningTest ∧
    (suiteDone s).1.anomalies = s.anomalies ++
      (if s.isSuite then [] else
        ["Allure reporter issue: suiteDone called without suiteStart context."]) ++
      (if s.runningTest.isSome then
        ["Allure reporter issue: A test was running on suiteDone."] else []) := by
  cases hgl : s.groupStack.getLast? with
  | none =>
    exact absurd (List.getLast?_eq_none_iff.mp hgl) hg
  | some g =>
    cases hb1 : s.isSuite <;> cases hb2 : s.runningTest <;>
      simp [suiteDone, getCurrentGroup, closeGroup, hgl, hb1, hb2]

/-- Witness for `c5_suiteDone_anomalies`: a suite-exited while test "t1" is
still running is logged, not thrown, and the group is popped. -/
theorem c5_suiteDone_anomalies_witness :
    (suiteDone overlapState).2 = none ∧
    (suiteDone overlapState).1.groupStack = overlapState.groupStack.dropLast ∧
    (suiteDone overlapState).1.labelStack = overlapState.labelStack.dropLast ∧
    (suiteDone overlapState).1.runningTest = overlapState.runningTest ∧
    (suiteDone overlapState).1.anomalies = overlapState.anomalies ++
      (if overlapState.isSuite then [] else
        ["Allure reporter issue: suiteDone called without suiteStart context."]) ++
      (if overlapState.runningTest.isSome then
        ["Allure reporter issue: A test was running on suiteDone."] else []) :=
  c5_suiteDone_anomalies overlapState (by decide)

/-! ## C6 -/

/-- Claim C6, counterexample: after the scenario suite "A" → suite "B" →
spec "t1" → passed → suites exited, test "t1" is not a direct child of group
"B": its parent is the interposed anonymous "Test wrapper" group (itself a
child of "B"), so the final group chain is not root→A→B→t1. -/
theorem c6_counterexample :
    (c6s6.1.tests.get? 0).map TestData.parentGroup = some 2 ∧
    (c6s6.1.groups.get? 2).map GroupData.name = some "Test wrapper" ∧
    (c6s6.1.groups.get? 2).map GroupData.name ≠ some "B" ∧
    (c6s6.1.groups.get? 1).map GroupData.name = some "B" := by
  refine ⟨by decide, by decide, by decide, by decide⟩

/-- Claim C6 as amended: the scenario succeeds with no handler error; test
"t1" carries exactly the labels parent-suite="A" and suite="B" (no
sub-suite), ends passed/finished, and the final group tree is
root → "A" → "B" → "Test wrapper" → t1 with every group closed, the group
stack empty and no test running. -/
theorem c6_scenario_labels_and_tree :
    c6s3.2 = none ∧ c6s4.2 = none ∧ c6s5.2 = none ∧ c6s6.2 = none ∧
    c6s6.1.groups = [{ name := "A", parent := none, closed := true },
      { name := "B", parent := some 0, closed := true },
      { name := "Test wrapper", parent := some 1, closed := true }] ∧
    (c6s6.1.tests.get? 0).map TestData.labels =
      some [{ name := PARENT_SUITE, value := "A" }, { name := SUITE, value := "B" }] ∧
    (c6s6.1.tests.get? 0).map TestData.parentGroup = some 2 ∧
    (c6s6.1.tests.get? 0).map (fun td => td.item.status) = some (some Status.passed) ∧
    (c6s6.1.tests.get? 0).map (fun td => td.item.stage) = some Stage.finished ∧
    c6s6.1.groupStack = [] ∧ c6s6.1.runningTest = none := by
  decide

/-! ## C7 and C9 -/

theorem get?_append_length (l : List α) (a : α) : (l ++ [a]).get? l.length = some a := by
  simp

/-- Claim C7: a step opened and closed through `step` whose synchronous body
completes normally (no status explicitly set — the fresh step record has
none) ends passed/finished; a step given an explicit status through `logStep`
retains exactly that status with stage finished; and completion through `wrap`
never overwrites a status that was already assigned. -/
theorem c7_step_status_roundtrip :
    (∀ (s : ReporterState) (name : String) (v : JsValue) (o : StepOwner),
      currentExecutableRef s = some o →
      ∃ s', ifaceStepSync s name (fun _ => SyncOutcome.ret v) = Except.ok s' ∧
        s'.2 = WrapRet.value v ∧
        (s'.1.stepsArena.get? s.stepsArena.length).map (fun sd => sd.item.status) =
          some (some Status.passed) ∧
        (s'.1.stepsArena.get? s.stepsArena.length).map (fun sd => sd.item.stage) =
          some Stage.finished) ∧
    (∀ (s : ReporterState) (name : String) (x : Status) (o : StepOwner),
      currentExecutableRef s = some o →
      ∃ s', ifaceLogStep s name x [] = Except.ok s' ∧
        (s'.stepsArena.get? s.stepsArena.length).map (fun sd => sd.item.status) =
          some (some x) ∧
        (s'.stepsArena.get? s.stepsArena.length).map (fun sd => sd.item.stage) =
          some Stage.finished) ∧
    (∀ (st : ItemState) (x : Status), st.status = some x →
      (wrapSync st (SyncOutcome.ret ())).1.status = some x ∧
      (wrapAsync st (AsyncOutcome.resolves ())).1.status = some x) := by
  refine ⟨?_, ?_, ?_⟩
  · intro s name v o h
    simp only [ifaceStepSync, ifaceStartStep, h]
    refine ⟨_, rfl, ?_, ?_, ?_⟩ <;>
      simp [wrapSyncInvoke, wrapSync, finishNonPromise, wrappedEndStep,
        updStep, updateAt_getElem_eq, List.getElem?_concat_length, dummyStep]
  · intro s name x o h
    simp only [ifaceLogStep, ifaceStartStep, h, List.foldl_nil]
    refine ⟨_, rfl, ?_, ?_⟩ <;>
      simp [logStep, wrappedEndStep, updStep, updateAt_getElem_eq,
        List.getElem?_concat_length]
  · intro st x h
    constructor <;> simp [wrapSync, wrapAsync, finishNonPromise, h]

/-- Witness for `c7_step_status_roundtrip` on a running test. -/
theorem c7_step_status_roundtrip_witness :
    (∃ s', ifaceStepSync overlapState "s1" (fun _ => SyncOutcome.ret JsValue.undef) =
        Except.ok s' ∧ s'.2 = WrapRet.value JsValue.undef ∧
        (s'.1.stepsArena.get? overlapState.stepsArena.length).map
          (fun sd => sd.item.status) = some (some Status.passed) ∧
        (s'.1.stepsArena.get? overlapState.stepsArena.length).map
          (fun sd => sd.item.stage) = some Stage.finished) ∧
    (∃ s', ifaceLogStep overlapState "s2" Status.failed [] = Except.ok s' ∧
        (s'.stepsArena.get? overlapState.stepsArena.length).map
          (fun sd => sd.item.status) = some (some Status.failed) ∧
        (s'.stepsArena.get? overlapState.stepsArena.length).map
          (fun sd => sd.item.stage) = some Stage.finished) ∧
    ((wrapSync { status := some Status.skipped : ItemState }
        (SyncOutcome.ret ())).1.status = some Status.skipped ∧
      (wrapAsync { status := some Status.skipped : ItemState }
        (AsyncOutcome.resolves ())).1.status = some Status.skipped) :=
  ⟨c7_step_status_roundtrip.1 overlapState "s1" JsValue.undef
      (StepOwner.ofTest 0) (by decide),
   c7_step_status_roundtrip.2.1 overlapState "s2" Status.failed
      (StepOwner.ofTest 0) (by decide),
   c7_step_status_roundtrip.2.2 { status := some Status.skipped } Status.skipped rfl⟩

/-- Claim C9: `wrap` invokes the body with exactly one argument — the raw
array of the arguments the wrapped function received (not spread): a body
echoing its received argument list sees the one-element list holding that
array, its first declared parameter is bound to the array itself, and at the
`step` call site (which invokes the wrapped function with zero arguments) the
declared `StepInterface` parameter is bound to an empty array, never to a
step object. -/
theorem c9_body_receives_args_array :
    (∀ (st : ItemState) (args : List JsValue),
      (wrapSyncInvoke st (fun received => SyncOutcome.ret (JsValue.arr received)) args).2 =
        WrapRet.value (JsValue.arr [JsValue.arr args])) ∧
    (∀ (st : ItemState) (args : List JsValue),
      (wrapSyncInvoke st (fun received => SyncOutcome.ret (bindFirstParam received)) args).2 =
        WrapRet.value (JsValue.arr args)) ∧
    (∀ (s : ReporterState) (name : String) (o : StepOwner),
      currentExecutableRef s = some o →
      ∃ s', ifaceStepSync s name (fun received => SyncOutcome.ret (bindFirstParam received)) =
          Except.ok s' ∧
        s'.2 = WrapRet.value (JsValue.arr []) ∧
        s'.2 ≠ WrapRet.value JsValue.stepObj) := by
  refine ⟨?_, ?_, ?_⟩
  · intro st args
    rfl
  · intro st args
    rfl
  · intro s name o h
    simp only [ifaceStepSync, ifaceStartStep, h]
    refine ⟨_, rfl, ?_, ?_⟩
    · simp [wrapSyncInvoke, wrapSync, finishNonPromise, bindFirstParam,
        get?_append_length]
    · simp only [wrapSyncInvoke, wrapSync, bindFirstParam]
      intro hc
      rcases WrapRet.value.inj hc with hv
      cases hv

/-- Witness for `c9_body_receives_args_array` on a running test. -/
theorem c9_body_receives_args_array_witness :
    ∃ s', ifaceStepSync overlapState "s9"
        (fun received => SyncOutcome.ret (bindFirstParam received)) = Except.ok s' ∧
      s'.2 = WrapRet.value (JsValue.arr []) ∧
      s'.2 ≠ WrapRet.value JsValue.stepObj :=
  c9_body_receives_args_array.2.2 overlapState "s9" (StepOwner.ofTest 0) (by decide)

/-! ## C4 -/

theorem forceCloseStep_length (a : ReporterState) (si : Nat) :
    (forceCloseStep a si).stepsArena.length = a.stepsArena.length := by
  unfold forceCloseStep updStep
  simp [updateAt_length]

theorem forceCloseStep_at_self (a : ReporterState) (si : Nat)
    (h : si < a.stepsArena.length) :
    ((forceCloseStep a si).stepsArena)[si]? =
      some { a.stepsArena[si] with item := { (a.stepsArena[si]).item with
        status := some Status.broken, stage := Stage.interrupted,
        detailsMessage := some "Test ended unexpectedly before step could complete.",
        stop := some a.clock } } := by
  show (updateAt a.stepsArena si _)[si]? = _
  rw [updateAt_getElem_eq, List.getElem?_eq_getElem h, Option.map_some']

theorem forceCloseStep_marks (a : ReporterState) (si : Nat)
    (h : si < a.stepsArena.length) : markedAt (forceCloseStep a si) si :=
  ⟨_, forceCloseStep_at_self a si h, rfl, rfl, rfl, rfl⟩

theorem forceCloseStep_stop_at (a : ReporterState) (si : Nat)
    (h : si < a.stepsArena.length) :
    ∃ sd, ((forceCloseStep a si).stepsArena)[si]? = some sd ∧
      sd.item.stop = some a.clock :=
  ⟨_, forceCloseStep_at_self a si h, rfl⟩

theorem forceCloseStep_preserves_at (a : ReporterState) (si j : Nat) (h : si ≠ j) :
    ((forceCloseStep a si).stepsArena)[j]? = a.stepsArena[j]? := by
  unfold forceCloseStep updStep
  simp [updateAt_getElem_ne _ _ _ _ h]

theorem forceClose_fold_keeps_marked :
    ∀ (l : List Nat) (a : ReporterState) (si : Nat),
      markedAt a si → markedAt (l.foldl forceCloseStep a) si
  | [], _, _, h => h
  | x :: xs, a, si, h => by
    rw [List.foldl_cons]
    apply forceClose_fold_keeps_marked xs
    by_cases hx : x = si
    · subst hx
      obtain ⟨sd, hsd, _⟩ := h
      exact forceCloseStep_marks a x (List.getElem?_eq_some.mp hsd).1
    · obtain ⟨sd, hsd, hm⟩ := h
      exact ⟨sd, (forceCloseStep_preserves_at a x si hx).trans hsd, hm⟩

theorem forceClose_fold_marks :
    ∀ (l : List Nat) (a : ReporterState) (si : Nat),
      si ∈ l → si < a.stepsArena.length → markedAt (l.foldl forceCloseStep a) si
  | [], _, _, hmem, _ => absurd hmem (List.not_mem_nil _)
  | x :: xs, a, si, hmem, hlt => by
    rw [List.foldl_cons]
    rcases List.mem_cons.mp hmem with hx | hxs
    · subst hx
      exact forceClose_fold_keeps_marked xs _ _ (forceCloseStep_marks a si hlt)
    · exact forceClose_fold_marks xs _ _ hxs ((forceCloseStep_length a x).symm ▸ hlt)

theorem forceClose_fold_preserves_not_mem :
    ∀ (l : List Nat) (a : ReporterState) (si : Nat),
      si ∉ l → ((l.foldl forceCloseStep a).stepsArena)[si]? = a.stepsArena[si]?
  | [], _, _, _ => rfl
  | x :: xs, a, si, h => by
    have hx : x ≠ si := fun he => h (he ▸ List.mem_cons_self x xs)
    have hxs : si ∉ xs := fun hm => h (List.mem_cons_of_mem _ hm)
    rw [List.foldl_cons, forceClose_fold_preserves_not_mem xs _ _ hxs,
      forceCloseStep_preserves_at a x si hx]

theorem forceClose_fold_groupStack :
    ∀ (l : List Nat) (a : ReporterState),
      (l.foldl forceCloseStep a).groupStack = a.groupStack
  | [], _ => rfl
  | x :: xs, a => forceClose_fold_groupStack xs (forceCloseStep a x)

theorem forceClose_fold_isSuite :
    ∀ (l : List Nat) (a : ReporterState),
      (l.foldl forceCloseStep a).isSuite = a.isSuite
  | [], _ => rfl
  | x :: xs, a => forceClose_fold_isSuite xs (forceCloseStep a x)

theorem specDoneStatus_frame (s : ReporterState) (t : Nat) (sp : SpecResult) :
    (specDoneStatus s t sp).stepsArena = s.stepsArena ∧
    (specDoneStatus s t sp).stepStack = s.stepStack ∧
    (specDoneStatus s t sp).groupStack = s.groupStack ∧
    (specDoneStatus s t sp).isSuite = s.isSuite := by
  simp only [specDoneStatus, updTest]
  split_ifs <;> exact ⟨rfl, rfl, rfl, rfl⟩

theorem specDoneException_frame (s : ReporterState) (t : Nat) (sp : SpecResult) :
    (specDoneException s t sp).stepsArena = s.stepsArena ∧
    (specDoneException s t sp).stepStack = s.stepStack ∧
    (specDoneException s t sp).groupStack = s.groupStack ∧
    (specDoneException s t sp).isSuite = s.isSuite := by
  unfold specDoneException
  split
  · exact ⟨rfl, rfl, rfl, rfl⟩
  · split_ifs <;> exact ⟨rfl, rfl, rfl, rfl⟩

theorem endTestIn_frame (s : ReporterState) (t : Nat) :
    (endTestIn s t).stepsArena = s.stepsArena ∧
    (endTestIn s t).stepStack = s.stepStack ∧
    (endTestIn s t).groupStack = s.groupStack ∧
    (endTestIn s t).isSuite = s.isSuite :=
  ⟨rfl, rfl, rfl, rfl⟩

theorem specDoneSteps_of_ne (s : ReporterState) (h : s.stepStack ≠ []) :
    (specDoneSteps s).stepStack = [] ∧
    (specDoneSteps s).groupStack = s.groupStack ∧
    (specDoneSteps s).isSuite = s.isSuite ∧
    (specDoneSteps s).stepsArena =
      ((s.stepStack.reverse).foldl forceCloseStep
        { s with anomalies := s.anomalies ++
          ["Allure reporter issue: step stack is not empty on specDone"] }).stepsArena := by
  have hpos : 0 < s.stepStack.length := List.length_pos.mpr h
  unfold specDoneSteps
  rw [if_pos hpos]
  refine ⟨rfl, ?_, ?_, rfl⟩
  · exact forceClose_fold_groupStack _ _
  · exact forceClose_fold_isSuite _ _

/-- Claim C4: when steps remain open at `specDone` (with a running test, in
suite-mode, with an open group, and well-formed step indices), every open step
is force-closed as broken/interrupted with the synthetic "ended unexpectedly"
message, the step stack is left empty, no exception escapes the handler, and
closing is innermost-first: the innermost step (top of the stack, when not
also open deeper down) receives the earliest stop timestamp, `s.clock`. -/
theorem c4_leaked_steps_force_closed (s : ReporterState) (t inner : Nat)
    (sp : SpecResult)
    (ht : s.runningTest = some t) (hsuite : s.isSuite = true)
    (hg : s.groupStack ≠ []) (hne : s.stepStack ≠ [])
    (hvalid : ∀ si ∈ s.stepStack, si < s.stepsArena.length)
    (hinner : s.stepStack.getLast? = some inner)
    (hdup : inner ∉ s.stepStack.dropLast) :
    (specDone s sp).2 = none ∧
    (specDone s sp).1.stepStack = [] ∧
    (∀ si ∈ s.stepStack, ∃ sd, (specDone s sp).1.stepsArena.get? si = some sd ∧
      forceClosedStep sd) ∧
    (∃ sd, (specDone s sp).1.stepsArena.get? inner = some sd ∧
      sd.item.stop = some s.clock) := by
  have hsteps := specDoneSteps_of_ne s hne
  obtain ⟨hst1, hgs1, his1, har1⟩ := hsteps
  simp only [specDone, ht]
  have h2 := specDoneStatus_frame (specDoneSteps s) t sp
  have h3 := specDoneException_frame (specDoneStatus (specDoneSteps s) t sp) t sp
  have h4 := endTestIn_frame
    (specDoneException (specDoneStatus (specDoneSteps s) t sp) t sp) t
  set sfin := endTestIn (specDoneException (specDoneStatus (specDoneSteps s) t sp) t sp) t
    with hsfin
  have harena : sfin.stepsArena = (specDoneSteps s).stepsArena := by
    rw [h4.1, h3.1, h2.1]
  have hstack : sfin.stepStack = [] := by
    rw [h4.2.1, h3.2.1, h2.2.1, hst1]
  have hgroup : sfin.groupStack = s.groupStack := by
    rw [h4.2.2.1, h3.2.2.1, h2.2.2.1, hgs1]
  have hsuite2 : sfin.isSuite = true := by
    rw [h4.2.2.2, h3.2.2.2, h2.2.2.2, his1, hsuite]
  cases hgl : s.groupStack.getLast? with
  | none => exact absurd (List.getLast?_eq_none_iff.mp hgl) hg
  | some g =>
    have hcg : getCurrentGroup { sfin with runningTest := none } = some g := by
      show ({ sfin with runningTest := none } : ReporterState).groupStack.getLast? = some g
      show sfin.groupStack.getLast? = some g
      rw [hgroup, hgl]
    rw [hcg]
    have hcs : (closeGroup { sfin with runningTest := none } g).isSuite = true := hsuite2
    simp only [closeGroup]
    rw [if_pos hsuite2]
    refine ⟨rfl, ?_, ?_, ?_⟩
    · exact hstack
    · intro si hsi
      have hmark : markedAt (specDoneSteps s) si := by
        unfold markedAt
        rw [har1]
        exact forceClose_fold_marks _ _ _ (List.mem_reverse.mpr hsi) (hvalid si hsi)
      obtain ⟨sd, hsd, hm⟩ := hmark
      refine ⟨sd, ?_, hm⟩
      rw [List.get?_eq_getElem?]
      show sfin.stepsArena[si]? = some sd
      rw [harena]
      exact hsd
    · have hdecomp : s.stepStack = s.stepStack.dropLast ++ [inner] :=
        (List.dropLast_append_getLast? inner hinner).symm
      have hrev : s.stepStack.reverse = inner :: s.stepStack.dropLast.reverse := by
        conv_lhs => rw [hdecomp]
        simp
      have hmem : inner ∈ s.stepStack := by
        rw [hdecomp]
        exact List.mem_append_right _ (List.mem_singleton.mpr rfl)
      have hlt : inner < s.stepsArena.length := hvalid inner hmem
      obtain ⟨sd, hsd, hstop⟩ := forceCloseStep_stop_at
        { s with anomalies := s.anomalies ++
          ["Allure reporter issue: step stack is not empty on specDone"] } inner hlt
      refine ⟨sd, ?_, hstop⟩
      rw [List.get?_eq_getElem?]
      show sfin.stepsArena[inner]? = some sd
      rw [harena, har1, hrev, List.foldl_cons,
        forceClose_fold_preserves_not_mem _ _ _
          (fun hm => hdup (List.mem_reverse.mp hm))]
      exact hsd

/-- Witness for `c4_leaked_steps_force_closed`: a spec with two nested open
steps is finished; both steps are left force-closed. -/
theorem c4_leaked_steps_force_closed_witness :
    (specDone c4pre { status := "passed" }).2 = none ∧
    (specDone c4pre { status := "passed" }).1.stepStack = [] ∧
    (∀ si ∈ c4pre.stepStack, ∃ sd,
      (specDone c4pre { status := "passed" }).1.stepsArena.get? si = some sd ∧
      forceClosedStep sd) ∧
    (∃ sd, (specDone c4pre { status := "passed" }).1.stepsArena.get? 1 = some sd ∧
      sd.item.stop = some c4pre.clock) :=
  c4_leaked_steps_force_closed c4pre 0 1 { status := "passed" }
    (by decide) (by decide) (by decide) (by decide)
    (by decide) (by decide) (by decide)

/-! ## C8 -/

theorem specDoneSteps_of_nil (s : ReporterState) (h : s.stepStack = []) :
    specDoneSteps s = s := by
  unfold specDoneSteps
  rw [h]
  simp

theorem specDone_some_proj (s : ReporterState) (t g : Nat) (sp : SpecResult)
    (ht : s.runningTest = some t) (hst : s.stepStack = [])
    (hgl : s.groupStack.getLast? = some g) (hsuite : s.isSuite = true) :
    (specDone s sp).2 = none ∧
    (specDone s sp).1.tests =
      (endTestIn (specDoneException (specDoneStatus s t sp) t sp) t).tests := by
  have h2 := specDoneStatus_frame s t sp
  have h3 := specDoneException_frame (specDoneStatus s t sp) t sp
  have hgroup3 : (specDoneException (specDoneStatus s t sp) t sp).groupStack =
      s.groupStack := h3.2.2.1.trans h2.2.2.1
  have hsuite3 : (specDoneException (specDoneStatus s t sp) t sp).isSuite = true :=
    (h3.2.2.2.trans h2.2.2.2).trans hsuite
  have hcg : getCurrentGroup
      { endTestIn (specDoneException (specDoneStatus s t sp) t sp) t
        with runningTest := none } = some g := by
    show (specDoneException (specDoneStatus s t sp) t sp).groupStack.getLast? = some g
    rw [hgroup3, hgl]
  simp only [specDone, ht, specDoneSteps_of_nil s hst, hcg]
  split
  · exact ⟨rfl, rfl⟩
  · next hif => exact absurd hsuite3 hif

/-- Claim C8, counterexample: with one failure record whose matcher name is
empty, message "X" and stack "aXb", the reported trace is "ab" — the message
was removed from the middle of the stack (its first occurrence), although the
stack does not start with the message, so "removed from the start of the
stack" does not describe the computation. -/
theorem c8_counterexample :
    ((specDone c8base { status := "failed", failedExpectations := c8cexFe }).1.tests.get? 0).map
        (fun td => td.item.detailsTrace) = some (some "ab") ∧
    ((specDone c8base { status := "failed", failedExpectations := c8cexFe }).1.tests.get? 0).map
        (fun td => td.item.detailsTrace) ≠ some (some "aXb") ∧
    dropLeading ("aXb".data) ("X".data) = none := by
  refine ⟨by decide, by decide, by decide⟩

/-- Claim C8 as amended: when the spec exits failed with failure records
present, the reported failure is the first expectation with an empty matcher
name, else the first recorded failed expectation; the reported message is the
ANSI-stripped message of that expectation, and — when its stack is truthy —
the reported trace is the ANSI-stripped stack with the first occurrence of the
stripped message removed (wherever it occurs, typically the start); with a
falsy stack no trace is recorded. -/
theorem c8_failure_selection (fe : List FailedExpectation) (e : FailedExpectation)
    (hsel : (findMessageAboutThrow fe).orElse (fun _ => findAnyError fe) = some e) :
    (specDone c8base { status := "failed", failedExpectations := fe }).2 = none ∧
    ((specDone c8base { status := "failed", failedExpectations := fe }).1.tests.get? 0).map
        (fun td => td.item.detailsMessage) = some (some (stripAnsi e.message)) ∧
    (truthy e.stack = true →
      ((specDone c8base { status := "failed", failedExpectations := fe }).1.tests.get? 0).map
        (fun td => td.item.detailsTrace) =
        some (some (replaceFirst (stripAnsi e.stack) (stripAnsi e.message)))) ∧
    (truthy e.stack = false →
      ((specDone c8base { status := "failed", failedExpectations := fe }).1.tests.get? 0).map
        (fun td => td.item.detailsTrace) = some none) ∧
    (fe.find? (fun q => q.matcherName = "") = some e ∨
      (fe.find? (fun q => q.matcherName = "") = none ∧ fe.head? = some e)) := by
  have hproj := specDone_some_proj c8base 0 1
    { status := "failed", failedExpectations := fe } rfl rfl rfl rfl
  have hct : c8base.tests =
      [{ name := "t1", parentGroup := 1, fullName := "A t1", historyId := "A t1",
         labels := [{ name := PARENT_SUITE, value := "A" }],
         item := { stage := Stage.running }, ended := false }] := by decide
  have hne1 : ¬("failed" = "passed") := by decide
  have hne2 : ¬("failed" = "broken") := by decide
  have hne4 : ¬("failed" = "pending" ∨ "failed" = "disabled" ∨
      "failed" = "excluded" ∨ "failed" = "todo") := by decide
  have hstat : ∀ sp : SpecResult, sp.status = "failed" →
      specDoneStatus c8base 0 sp =
      updTest c8base 0 (fun td => { td with item :=
        { td.item with status := some Status.failed, stage := Stage.finished } }) := by
    intro sp hsp
    unfold specDoneStatus
    rw [hsp]
    simp only [if_neg hne1, if_neg hne2, if_neg hne4,
      if_pos (show "failed" = "failed" from rfl)]
    exact if_pos trivial
  have hexc : ∀ (s' : ReporterState) (sp : SpecResult), sp.failedExpectations = fe →
      specDoneException s' 0 sp =
        (let message := stripAnsi e.message
         let s'' := updTest s' 0 (fun td => { td with item :=
           { td.item with detailsMessage := some message } })
         if truthy e.stack then
           updTest s'' 0 (fun td => { td with item :=
             { td.item with detailsTrace := some (replaceFirst (stripAnsi e.stack) message) } })
         else s'') := by
    intro s' sp hfe
    unfold specDoneException
    rw [hfe, hsel]
  have hpol : fe.find? (fun q => q.matcherName = "") = some e ∨
      (fe.find? (fun q => q.matcherName = "") = none ∧ fe.head? = some e) := by
    unfold findMessageAboutThrow findAnyError at hsel
    cases hfind : fe.find? (fun q => q.matcherName = "") with
    | some q =>
      left
      rw [hfind] at hsel
      simp only [Option.orElse] at hsel
      exact hsel
    | none =>
      right
      rw [hfind] at hsel
      simp only [Option.orElse] at hsel
      exact ⟨rfl, hsel⟩
  refine ⟨hproj.1, ?_, ?_, ?_, hpol⟩ <;>
  · rw [hproj.2, hstat _ rfl, hexc _ _ rfl]
    cases hts : truthy e.stack <;>
      simp [hts, endTestIn, updTest, hct, updateAt_getElem_eq,
        List.get?_eq_getElem?]

/-- Witness for `c8_failure_selection` at a single explicit-throw failure
record. -/
theorem c8_failure_selection_witness :
    (specDone c8base { status := "failed", failedExpectations := [c8witE] }).2 = none ∧
    ((specDone c8base { status := "failed", failedExpectations := [c8witE] }).1.tests.get? 0).map
        (fun td => td.item.detailsMessage) = some (some (stripAnsi c8witE.message)) ∧
    (truthy c8witE.stack = true →
      ((specDone c8base { status := "failed", failedExpectations := [c8witE] }).1.tests.get? 0).map
        (fun td => td.item.detailsTrace) =
        some (some (replaceFirst (stripAnsi c8witE.stack) (stripAnsi c8witE.message)))) ∧
    (truthy c8witE.stack = false →
      ((specDone c8base { status := "failed", failedExpectations := [c8witE] }).1.tests.get? 0).map
        (fun td => td.item.detailsTrace) = some none) ∧
    ([c8witE].find? (fun q => q.matcherName = "") = some c8witE ∨
      ([c8witE].find? (fun q => q.matcherName = "") = none ∧ [c8witE].head? = some c8witE)) :=
  c8_failure_selection [c8witE] c8witE (by decide)

end AllureJs
